import Mathlib

/-!
Shallow embedding of the client-side orchestration core of the
TAHA-JAITI-GESTION-BIBLIOTHEQUE frontend:

* `src/frontend/src/controllers/authController.ts` — the auth action
  orchestrator (`handleLogin`, `register`, `handleLogout`);
* `src/frontend/src/components/BookForm.tsx` — the book-creation form
  pipeline (`validate`, `handleChange`, `handleSubmit`).

Asynchronous handlers are modelled as functions from the gateway call's
outcome (resolve with an envelope, or reject with an optional message)
to the ordered list of observable events the handler performs, paired
with the exception (if any) that escapes the handler.  JavaScript
numbers reaching the quantity field are modelled as `JsNum` (an integer
or NaN), string truthiness as emptiness, and object truthiness of an
optional value as `Option.isSome`.
-/

/-- A JavaScript number as it can appear in the form's quantity field:
an integer, or NaN (the result of `parseInt` on non-numeric input). -/
inductive JsNum where
  | num (n : Int)
  | nan
  deriving DecidableEq, Repr

/-- JavaScript `x < m` where `x` may be NaN: `NaN < m` is false. -/
def jsLt (x : JsNum) (m : Int) : Bool :=
  match x with
  | JsNum.num n => n < m
  | JsNum.nan => false

/-- JavaScript `isNaN`. -/
def jsIsNaN (x : JsNum) : Bool :=
  match x with
  | JsNum.num _ => false
  | JsNum.nan => true

/-- JavaScript `Math.max(1, x)`: `Math.max` with a NaN argument is NaN. -/
def jsMax1 (x : JsNum) : JsNum :=
  match x with
  | JsNum.num n => JsNum.num (max 1 n)
  | JsNum.nan => JsNum.nan

/-- JavaScript `m.message || d` where the property is an optional string:
an absent or empty (falsy) message yields the fallback `d`. -/
def jsOr (m : Option String) (d : String) : String :=
  match m with
  | some s => if s = "" then d else s
  | none => d

/-- JavaScript `String.prototype.trim()`: drop whitespace from both
ends of the string. -/
def jsTrim (s : String) : String :=
  String.mk
    (((s.toList.dropWhile Char.isWhitespace).reverse.dropWhile Char.isWhitespace).reverse)

/-- Decimal digit value of a character, `none` if not a digit. -/
def digitVal (c : Char) : Option Nat :=
  if '0' ≤ c ∧ c ≤ '9' then some (c.toNat - '0'.toNat) else none

/-- Hexadecimal digit value of a character, `none` if not a hex digit. -/
def hexDigitVal (c : Char) : Option Nat :=
  if '0' ≤ c ∧ c ≤ '9' then some (c.toNat - '0'.toNat)
  else if 'a' ≤ c ∧ c ≤ 'f' then some (c.toNat - 'a'.toNat + 10)
  else if 'A' ≤ c ∧ c ≤ 'F' then some (c.toNat - 'A'.toNat + 10)
  else none

/-- Accumulate the leading run of digits (per `dv`) in base `base`,
stopping at the first non-digit. -/
def parseDigits (dv : Char → Option Nat) (base : Nat) : List Char → Nat → Nat
  | [], acc => acc
  | c :: cs, acc =>
    match dv c with
    | some d => parseDigits dv base cs (acc * base + d)
    | none => acc

/-- Parse a non-empty leading digit run; `none` when the first character
is not a digit (JavaScript `parseInt` then returns NaN). -/
def parseRun (dv : Char → Option Nat) (base : Nat) (l : List Char) : Option Nat :=
  match l with
  | [] => none
  | c :: cs =>
    match dv c with
    | none => none
    | some d => some (parseDigits dv base cs d)

/-- JavaScript `parseInt(value)` (radix unspecified): skip leading
whitespace, read an optional sign, then either a `0x`/`0X` hexadecimal
run or a decimal run, stopping at the first invalid character; NaN when
no digit is read. -/
def parseIntJs (s : String) : JsNum :=
  let l := s.toList.dropWhile Char.isWhitespace
  let signAndRest : Int × List Char :=
    match l with
    | '-' :: r => (-1, r)
    | '+' :: r => (1, r)
    | _ => (1, l)
  let core : Option Nat :=
    match signAndRest.2 with
    | '0' :: 'x' :: r => parseRun hexDigitVal 16 r
    | '0' :: 'X' :: r => parseRun hexDigitVal 16 r
    | l2 => parseRun digitVal 10 l2
  match core with
  | some n => JsNum.num (signAndRest.1 * n)
  | none => JsNum.nan

/-! ## Auth action orchestrator (authController.ts) -/

/-- The `{access_token}` object inside a successful auth envelope. -/
structure TokenData where
  access_token : String
  deriving DecidableEq, Repr

/-- The `response.data` envelope of the Remote Access Gateway:
`data` is the (possibly null) token object. -/
structure Envelope where
  data : Option TokenData
  deriving DecidableEq, Repr

/-- Outcome of an awaited gateway auth call: resolve with an envelope,
or reject with an error whose `message` property may be absent/empty. -/
inductive GatewayOutcome where
  | resolve (env : Envelope)
  | reject (msg : Option String)
  deriving DecidableEq, Repr

/-- Outcome of the awaited gateway logout call (void on success). -/
inductive LogoutOutcome where
  | resolve
  | reject (msg : Option String)
  deriving DecidableEq, Repr

/-- Observable events performed by the auth orchestrator, in order. -/
inductive AuthEv where
  | setLoading (b : Bool)
  | setError (e : Option String)
  | gatewayLogin
  | gatewayRegister
  | gatewayLogout
  | sessionLogin (token : String)
  | sessionLogout
  | navigate (dest : String)
  deriving DecidableEq, Repr

/-- `handleLogin` from authController.ts: `setLoading(true); setError(null);`
then `try { await authService.login(...); if (response.data.data)
{ login(token); navigate('/') } else setError(...) } catch (err)
{ setError(err.message || 'Invalid credentials') } finally
{ setLoading(false) }`.  Returns the event trace and the exception (if
any) escaping the handler. -/
def handleLogin (o : GatewayOutcome) : List AuthEv × Option (Option String) :=
  let started := [AuthEv.setLoading true, AuthEv.setError none, AuthEv.gatewayLogin]
  let tryBody : List AuthEv × Option (Option String) :=
    match o with
    | GatewayOutcome.resolve env =>
      match env.data with
      | some d => ([AuthEv.sessionLogin d.access_token, AuthEv.navigate "/"], none)
      | none => ([AuthEv.setError (some "Login failed, please try again")], none)
    | GatewayOutcome.reject m => ([], some m)
  let caught : List AuthEv × Option (Option String) :=
    match tryBody.2 with
    | some m => (tryBody.1 ++ [AuthEv.setError (some (jsOr m "Invalid credentials"))], none)
    | none => tryBody
  (started ++ caught.1 ++ [AuthEv.setLoading false], caught.2)

/-- `register` from authController.ts: same shape as `handleLogin` with
the registration endpoint and the messages
`'Registering failed, please try again'` / `'Register failed'`. -/
def register (o : GatewayOutcome) : List AuthEv × Option (Option String) :=
  let started := [AuthEv.setLoading true, AuthEv.setError none, AuthEv.gatewayRegister]
  let tryBody : List AuthEv × Option (Option String) :=
    match o with
    | GatewayOutcome.resolve env =>
      match env.data with
      | some d => ([AuthEv.sessionLogin d.access_token, AuthEv.navigate "/"], none)
      | none => ([AuthEv.setError (some "Registering failed, please try again")], none)
    | GatewayOutcome.reject m => ([], some m)
  let caught : List AuthEv × Option (Option String) :=
    match tryBody.2 with
    | some m => (tryBody.1 ++ [AuthEv.setError (some (jsOr m "Register failed"))], none)
    | none => tryBody
  (started ++ caught.1 ++ [AuthEv.setLoading false], caught.2)

/-- `handleLogout` from authController.ts:
`await authService.logout(); logout(); navigate('/login');` — there is
no try/catch, so a rejection of the awaited call propagates and the
subsequent statements do not run. -/
def handleLogout (o : LogoutOutcome) : List AuthEv × Option (Option String) :=
  match o with
  | LogoutOutcome.resolve =>
    ([AuthEv.gatewayLogout, AuthEv.sessionLogout, AuthEv.navigate "/login"], none)
  | LogoutOutcome.reject m => ([AuthEv.gatewayLogout], some m)

/-- Tokens passed to Session Store `login`, in order of occurrence. -/
def sessionLoginTokens (tr : List AuthEv) : List String :=
  tr.filterMap fun e =>
    match e with
    | AuthEv.sessionLogin t => some t
    | _ => none

/-- Number of Session Store `logout()` calls in a trace. -/
def sessionLogoutCount (tr : List AuthEv) : Nat :=
  tr.countP fun e =>
    match e with
    | AuthEv.sessionLogout => true
    | _ => false

/-- Navigation destinations triggered by a trace, in order. -/
def navTargets (tr : List AuthEv) : List String :=
  tr.filterMap fun e =>
    match e with
    | AuthEv.navigate d => some d
    | _ => none

/-- The `error` state after a trace runs (initially null). -/
def finalError (tr : List AuthEv) : Option String :=
  tr.foldl (fun a e => match e with | AuthEv.setError v => v | _ => a) none

/-- The `loading` state after a trace runs (initially false). -/
def finalLoading (tr : List AuthEv) : Bool :=
  tr.foldl (fun a e => match e with | AuthEv.setLoading b => b | _ => a) false

/-! ## Book creation form pipeline (BookForm.tsx) -/

/-- The part of a DOM `File` object the form inspects: its media type. -/
structure FileObj where
  type : String
  deriving DecidableEq, Repr

/-- The `BookAdd` draft held in the form's `formData` state. -/
structure BookAdd where
  title : String
  author : String
  cover : Option FileObj
  quantity : JsNum
  deriving DecidableEq, Repr

/-- The per-field error record built by `validate`; an absent entry
means the key is not set in `newErrors`. -/
structure FieldErrors where
  title : Option String
  author : Option String
  quantity : Option String
  cover : Option String
  deriving DecidableEq, Repr

/-- The media types accepted for a cover, from `validate`. -/
def allowedTypes : List String := ["image/jpeg", "image/png", "image/gif"]

/-- `validate` from BookForm.tsx, as the error record it constructs.
Title/author: error when the trimmed string is empty (falsy) or the
raw length is `< 3`.  Quantity: error when `< 1` or NaN.  Cover: when
present, error if its type is not allowed; when absent, the
"Please upload an image." error. -/
def validate (formData : BookAdd) : FieldErrors :=
  { title :=
      if jsTrim formData.title = "" ∨ formData.title.length < 3 then
        some "Title must be at least 3 characters long."
      else none
  , author :=
      if jsTrim formData.author = "" ∨ formData.author.length < 3 then
        some "Author name must be at least 3 characters long."
      else none
  , quantity :=
      if jsLt formData.quantity 1 || jsIsNaN formData.quantity then
        some "Quantity must be a positive number."
      else none
  , cover :=
      match formData.cover with
      | some c =>
        if allowedTypes.contains c.type then none
        else some "Only JPG, PNG, or GIF images are allowed."
      | none => some "Please upload an image." }

/-- `Object.keys(newErrors).length === 0`: no field has an error. -/
def hasNoErrors (e : FieldErrors) : Bool :=
  e.title.isNone && e.author.isNone && e.quantity.isNone && e.cover.isNone

/-- The form fields `handleChange` can receive. -/
inductive FormField where
  | title
  | author
  | quantity
  deriving DecidableEq, Repr

/-- `handleChange` from BookForm.tsx, restricted to its effect on the
draft: text fields store the raw value; `quantity` stores
`Math.max(1, parseInt(value))`. -/
def handleChange (formData : BookAdd) (f : FormField) (value : String) : BookAdd :=
  match f with
  | FormField.title => { formData with title := value }
  | FormField.author => { formData with author := value }
  | FormField.quantity => { formData with quantity := jsMax1 (parseIntJs value) }

/-- Network/UI events performed by `handleSubmit`, in order. -/
inductive FormEv where
  | add (title author : String) (quantity : JsNum) (cover : Option FileObj)
  | getAll (page : Nat)
  | close
  deriving DecidableEq, Repr

/-- The component-local state `handleSubmit` reads and writes. -/
structure FormState where
  formData : BookAdd
  preview : String
  errors : FieldErrors
  deriving DecidableEq, Repr

/-- Result of one `handleSubmit` run: the ordered events issued, the
final component state, and whether a rejection escaped the handler. -/
structure SubmitResult where
  events : List FormEv
  state : FormState
  thrown : Bool
  deriving DecidableEq, Repr

/-- The draft's initial/reset value `{title:'', author:'', cover:null, quantity:1}`. -/
def initialDraft : BookAdd :=
  { title := "", author := "", cover := none, quantity := JsNum.num 1 }

/-- `handleSubmit` from BookForm.tsx: runs `validate` (which stores the
recomputed errors), aborts if any error exists; otherwise builds the
multipart payload and runs `await add(form); getAll(current_page);`
then resets the draft and preview and calls the close handler.
`addResolves` is the outcome of the awaited `add`: when it rejects, the
rejection escapes (`thrown`) and nothing after the `await` runs. -/
def handleSubmit (st : FormState) (addResolves : Bool) (current_page : Nat) : SubmitResult :=
  let newErrors := validate st.formData
  let st1 : FormState := { st with errors := newErrors }
  if hasNoErrors newErrors then
    let addEv := FormEv.add st.formData.title st.formData.author
      st.formData.quantity st.formData.cover
    if addResolves then
      { events := [addEv, FormEv.getAll current_page, FormEv.close]
      , state := { formData := initialDraft, preview := "", errors := st1.errors }
      , thrown := false }
    else
      { events := [addEv], state := st1, thrown := true }
  else
    { events := [], state := st1, thrown := false }

/-- A concrete fully valid draft: title "abc", author "xyz", a PNG
cover, quantity 2. -/
def sampleDraft : BookAdd :=
  { title := "abc", author := "xyz", cover := some { type := "image/png" },
    quantity := JsNum.num 2 }

/-- The empty error record (no field has an error). -/
def emptyErrors : FieldErrors :=
  { title := none, author := none, quantity := none, cover := none }

/-- A stale error record still carrying the absent-cover error. -/
def staleCoverErrors : FieldErrors :=
  { title := none, author := none, quantity := none,
    cover := some "Please upload an image." }

/-- Form state on mount: initial draft, empty preview, no errors. -/
def initialState : FormState :=
  { formData := initialDraft, preview := "", errors := emptyErrors }

/-- Form state holding `sampleDraft` with no errors recorded. -/
def sampleState : FormState :=
  { formData := sampleDraft, preview := "p", errors := emptyErrors }

/-- Form state holding the valid `sampleDraft` but a stale cover error:
reachable because `handleImageChange` stores the cover without
re-running `validate`. -/
def staleState : FormState :=
  { formData := sampleDraft, preview := "p", errors := staleCoverErrors }

/-! ## Claims -/

/-- C1 counterexample: when the gateway logout call rejects,
`handleLogout` performs no Session Store `logout()` and no navigation —
the rejection escapes instead — so the claim that session clearing and
navigation happen exactly once regardless of the gateway outcome is
false on the reject outcome. -/
theorem c1_logout_reject_cex :
    sessionLogoutCount (handleLogout (LogoutOutcome.reject none)).1 = 0 ∧
    navTargets (handleLogout (LogoutOutcome.reject none)).1 = [] ∧
    (handleLogout (LogoutOutcome.reject none)).2 = some none :=
  ⟨rfl, rfl, rfl⟩

/-- C1 (amended): if the remote logout call resolves, Session Store
`logout()` is called exactly once and navigation to the login
destination is triggered exactly once, with nothing escaping; if the
call rejects, neither happens and the rejection propagates out of the
handler. -/
theorem c1_logout_settles (o : LogoutOutcome) :
    (o = LogoutOutcome.resolve →
      sessionLogoutCount (handleLogout o).1 = 1 ∧
      navTargets (handleLogout o).1 = ["/login"] ∧
      (handleLogout o).2 = none) ∧
    (∀ m, o = LogoutOutcome.reject m →
      sessionLogoutCount (handleLogout o).1 = 0 ∧
      navTargets (handleLogout o).1 = [] ∧
      (handleLogout o).2 = some m) := by
  cases o with
  | resolve =>
    exact ⟨fun _ => ⟨rfl, rfl, rfl⟩, fun m hm => LogoutOutcome.noConfusion hm⟩
  | reject m =>
    refine ⟨fun h => LogoutOutcome.noConfusion h, fun m2 hm => ?_⟩
    injection hm with h
    subst h
    exact ⟨rfl, rfl, rfl⟩

/-- C1 witness: the resolve branch of `c1_logout_settles` at the
concrete resolve outcome. -/
theorem c1_logout_settles_witness :
    sessionLogoutCount (handleLogout LogoutOutcome.resolve).1 = 1 ∧
    navTargets (handleLogout LogoutOutcome.resolve).1 = ["/login"] ∧
    (handleLogout LogoutOutcome.resolve).2 = none :=
  (c1_logout_settles LogoutOutcome.resolve).1 rfl

/-- C2 counterexample: the title "ab " has trimmed length 2 (below 3),
yet `validate` reports no title error, because the source checks the
raw length (`formData.title.length < 3`), not the trimmed length.  So
"a title whose trimmed length is below 3 always yields an error" is
false. -/
theorem c2_trimmed_title_cex :
    (jsTrim "ab ").length < 3 ∧
    (validate { title := "ab ", author := "abcd",
                cover := some { type := "image/png" },
                quantity := JsNum.num 1 }).title = none := by
  exact ⟨by decide, by decide⟩

/-- C2 (amended): `validate` reports the title error exactly when the
title's trimmed form is empty or its raw (untrimmed) length is below 3,
and the author error exactly when the author's trimmed form is empty or
its raw length is below 3. -/
theorem c2_validate_length_checks (fd : BookAdd) :
    ((validate fd).title = some "Title must be at least 3 characters long." ↔
      (jsTrim fd.title = "" ∨ fd.title.length < 3)) ∧
    ((validate fd).author = some "Author name must be at least 3 characters long." ↔
      (jsTrim fd.author = "" ∨ fd.author.length < 3)) := by
  constructor <;>
  · simp only [validate]
    split <;> simp_all

/-- C3 counterexample: the quantity field change with raw input "abc"
stores NaN (`Math.max(1, parseInt("abc"))` is NaN), so a non-numeric
value does persist in the draft, contrary to the claim that every raw
input is stored as an integer floored at 1. -/
theorem c3_nonnumeric_quantity_cex :
    (handleChange initialDraft FormField.quantity "abc").quantity = JsNum.nan :=
  rfl

/-- C3 (amended): any numeric value stored by a quantity field change
is floored at 1 (so "-5" stores 1), but non-numeric input such as "abc"
stores NaN, which the next validation pass rejects as non-numeric
rather than being clamped at entry. -/
theorem c3_quantity_clamp (fd : BookAdd) (s : String) (n : Int)
    (h : (handleChange fd FormField.quantity s).quantity = JsNum.num n) :
    1 ≤ n ∧
    (handleChange fd FormField.quantity "-5").quantity = JsNum.num 1 ∧
    (handleChange fd FormField.quantity "abc").quantity = JsNum.nan ∧
    ((validate (handleChange fd FormField.quantity "abc")).quantity).isSome = true := by
  refine ⟨?_, rfl, rfl, rfl⟩
  have h2 : jsMax1 (parseIntJs s) = JsNum.num n := h
  cases hp : parseIntJs s with
  | num m =>
    rw [hp] at h2
    simp only [jsMax1, JsNum.num.injEq] at h2
    rw [← h2]
    exact le_max_left 1 m
  | nan =>
    rw [hp] at h2
    exact JsNum.noConfusion h2

/-- C3 witness: `c3_quantity_clamp` applied at the initial draft with
input "5", which stores the number 5. -/
theorem c3_quantity_clamp_witness :
    1 ≤ (5 : Int) ∧
    (handleChange initialDraft FormField.quantity "-5").quantity = JsNum.num 1 ∧
    (handleChange initialDraft FormField.quantity "abc").quantity = JsNum.nan ∧
    ((validate (handleChange initialDraft FormField.quantity "abc")).quantity).isSome
      = true :=
  c3_quantity_clamp initialDraft "5" 5 (by decide)

/-- C4 counterexample: on a successful login whose envelope carries the
empty token, the code still calls Session Store `login("")` and
navigates home with no error, because it branches on truthiness of the
`data` object, not of the token — contradicting the claim that an empty
token yields the error and no mutation or navigation. -/
theorem c4_empty_token_cex :
    sessionLoginTokens (handleLogin (GatewayOutcome.resolve
      { data := some { access_token := "" } })).1 = [""] ∧
    navTargets (handleLogin (GatewayOutcome.resolve
      { data := some { access_token := "" } })).1 = ["/"] ∧
    finalError (handleLogin (GatewayOutcome.resolve
      { data := some { access_token := "" } })).1 = none :=
  ⟨rfl, rfl, rfl⟩

/-- C4 (amended): on a successful login response, if the envelope's
`data` object is present then Session Store `login` is called exactly
once with its `access_token` — even when that token is empty — and
navigation to home is triggered with `error` left null; if `data` is
absent, `error` is set to "Login failed, please try again" with no
Session Store mutation and no navigation. -/
theorem c4_login_success_branching (env : Envelope) :
    (∀ d, env.data = some d →
      sessionLoginTokens (handleLogin (GatewayOutcome.resolve env)).1 = [d.access_token] ∧
      navTargets (handleLogin (GatewayOutcome.resolve env)).1 = ["/"] ∧
      finalError (handleLogin (GatewayOutcome.resolve env)).1 = none) ∧
    (env.data = none →
      sessionLoginTokens (handleLogin (GatewayOutcome.resolve env)).1 = [] ∧
      navTargets (handleLogin (GatewayOutcome.resolve env)).1 = [] ∧
      finalError (handleLogin (GatewayOutcome.resolve env)).1 =
        some "Login failed, please try again") := by
  obtain ⟨dt⟩ := env
  constructor
  · rintro d hd
    simp only at hd
    subst hd
    exact ⟨rfl, rfl, rfl⟩
  · rintro hd
    simp only at hd
    subst hd
    exact ⟨rfl, rfl, rfl⟩

/-- C4 witness: `c4_login_success_branching` at an envelope carrying
the concrete token "T". -/
theorem c4_login_success_branching_witness :
    sessionLoginTokens (handleLogin (GatewayOutcome.resolve
      { data := some { access_token := "T" } })).1 = ["T"] ∧
    navTargets (handleLogin (GatewayOutcome.resolve
      { data := some { access_token := "T" } })).1 = ["/"] ∧
    finalError (handleLogin (GatewayOutcome.resolve
      { data := some { access_token := "T" } })).1 = none :=
  (c4_login_success_branching { data := some { access_token := "T" } }).1
    { access_token := "T" } rfl


/-- C5: for every valid draft, `handleSubmit` issues `add` exactly once
and then `getAll(current_page)` exactly once, in that order (the
`getAll` is only issued in the branch where the awaited `add` has
resolved), then resets the draft to
`{title:'', author:'', cover:null, quantity:1}` and clears the
preview. -/
theorem c5_submit_valid (st : FormState) (page : Nat)
    (h : hasNoErrors (validate st.formData) = true) :
    (handleSubmit st true page).events =
      [FormEv.add st.formData.title st.formData.author st.formData.quantity
        st.formData.cover, FormEv.getAll page, FormEv.close] ∧
    (handleSubmit st true page).state.formData = initialDraft ∧
    (handleSubmit st true page).state.preview = "" := by
  simp [handleSubmit, h]

/-- C5 witness: `c5_submit_valid` at the concrete valid `sampleState`
and page 4. -/
theorem c5_submit_valid_witness :
    (handleSubmit sampleState true 4).events =
      [FormEv.add "abc" "xyz" (JsNum.num 2) (some { type := "image/png" }),
       FormEv.getAll 4, FormEv.close] ∧
    (handleSubmit sampleState true 4).state.formData = initialDraft ∧
    (handleSubmit sampleState true 4).state.preview = "" :=
  c5_submit_valid sampleState 4 (by decide)

/-- C6: every draft with a short (raw length < 3) title or author, a
quantity below 1 or NaN, or a cover that is absent or of a
non-allowed media type, fails validation with a non-empty error set,
and `handleSubmit` then issues no network call at all, storing the
recomputed errors so they stay visible. -/
theorem c6_invalid_draft_no_network (st : FormState) (addResolves : Bool) (page : Nat)
    (h : st.formData.title.length < 3 ∨ st.formData.author.length < 3 ∨
      jsLt st.formData.quantity 1 = true ∨ jsIsNaN st.formData.quantity = true ∨
      st.formData.cover = none ∨
      (∃ c, st.formData.cover = some c ∧ allowedTypes.contains c.type = false)) :
    hasNoErrors (validate st.formData) = false ∧
    (handleSubmit st addResolves page).events = [] ∧
    (handleSubmit st addResolves page).state.errors = validate st.formData := by
  have hf : hasNoErrors (validate st.formData) = false := by
    rcases h with h | h | h | h | h | ⟨c, hc, ht⟩
    · simp [hasNoErrors, validate, h]
    · simp [hasNoErrors, validate, h]
    · simp [hasNoErrors, validate, h]
    · simp [hasNoErrors, validate, h]
    · simp [hasNoErrors, validate, h]
    · have ht2 : c.type ∉ allowedTypes := by simpa using ht
      simp [hasNoErrors, validate, hc, ht2]
  refine ⟨hf, ?_, ?_⟩ <;> simp [handleSubmit, hf]

/-- C6 witness: `c6_invalid_draft_no_network` at the initial form state
(empty title, raw length 0 < 3). -/
theorem c6_invalid_draft_no_network_witness :
    hasNoErrors (validate initialState.formData) = false ∧
    (handleSubmit initialState true 1).events = [] ∧
    (handleSubmit initialState true 1).state.errors =
      validate initialState.formData :=
  c6_invalid_draft_no_network initialState true 1 (Or.inl (by decide))

/-- C7: `validate` yields the cover error "Please upload an image."
exactly when the cover is absent, yields
"Only JPG, PNG, or GIF images are allowed." exactly when a cover is
present with a media type outside {image/jpeg, image/png, image/gif},
and yields no cover error when a cover with an allowed type is present;
the two errors are mutually exclusive and a present-but-wrong-type
cover gets the type error, never the absent error. -/
theorem c7_cover_validation (fd : BookAdd) :
    (fd.cover = none → (validate fd).cover = some "Please upload an image.") ∧
    (∀ c, fd.cover = some c → allowedTypes.contains c.type = false →
      (validate fd).cover = some "Only JPG, PNG, or GIF images are allowed.") ∧
    (∀ c, fd.cover = some c → allowedTypes.contains c.type = true →
      (validate fd).cover = none) := by
  refine ⟨fun h => ?_, fun c hc ht => ?_, fun c hc ht => ?_⟩
  · simp [validate, h]
  · have ht2 : c.type ∉ allowedTypes := by simpa using ht
    simp [validate, hc, ht2]
  · have ht2 : c.type ∈ allowedTypes := by simpa using ht
    simp [validate, hc, ht2]

/-- C7 witness: the absent-cover branch of `c7_cover_validation` at the
initial draft. -/
theorem c7_cover_validation_witness :
    (validate initialDraft).cover = some "Please upload an image." :=
  (c7_cover_validation initialDraft).1 rfl

/-- C8: for every gateway outcome (success with or without a token, or
a rejection), both `handleLogin` and `register` set `loading := true`
as their first step and leave `loading = false` once the action
settles — the finally-style step runs on every exit path. -/
theorem c8_loading_cleared (o : GatewayOutcome) :
    (handleLogin o).1.head? = some (AuthEv.setLoading true) ∧
    finalLoading (handleLogin o).1 = false ∧
    (register o).1.head? = some (AuthEv.setLoading true) ∧
    finalLoading (register o).1 = false := by
  cases o with
  | resolve env =>
    obtain ⟨dt⟩ := env
    cases dt <;> exact ⟨rfl, rfl, rfl, rfl⟩
  | reject m => exact ⟨rfl, rfl, rfl, rfl⟩

/-- C9: every rejection of the gateway login call is caught inside
`handleLogin` (nothing escapes), with no Session Store mutation and no
navigation, `loading` ending false; `error` is set to the failure's
message when a non-empty one exists and to the fallback
"Invalid credentials" when the message is absent. -/
theorem c9_login_failure_handling (m : Option String) :
    (handleLogin (GatewayOutcome.reject m)).2 = none ∧
    sessionLoginTokens (handleLogin (GatewayOutcome.reject m)).1 = [] ∧
    navTargets (handleLogin (GatewayOutcome.reject m)).1 = [] ∧
    finalLoading (handleLogin (GatewayOutcome.reject m)).1 = false ∧
    (∀ s, m = some s → s ≠ "" →
      finalError (handleLogin (GatewayOutcome.reject m)).1 = some s) ∧
    (m = none →
      finalError (handleLogin (GatewayOutcome.reject m)).1 =
        some "Invalid credentials") := by
  refine ⟨rfl, rfl, rfl, rfl, ?_, ?_⟩
  · rintro s rfl hne
    show some (jsOr (some s) "Invalid credentials") = some s
    simp [jsOr, hne]
  · rintro rfl
    rfl

/-- C9 witness: `c9_login_failure_handling` at the rejection whose
message is "network down". -/
theorem c9_login_failure_handling_witness :
    finalError (handleLogin (GatewayOutcome.reject (some "network down"))).1 =
      some "network down" :=
  (c9_login_failure_handling (some "network down")).2.2.2.2.1
    "network down" rfl (by decide)

/-- C10 counterexample: `staleState` holds a valid draft but a stale
cover error (reachable because `handleImageChange` stores the cover
without re-validating); a submit whose `add` rejects still changes the
field errors — the re-validation at the start of `handleSubmit` clears
them — so "the field errors are left unchanged" is false. -/
theorem c10_stale_errors_cleared_cex :
    hasNoErrors (validate staleState.formData) = true ∧
    (handleSubmit staleState false 1).thrown = true ∧
    (handleSubmit staleState false 1).state.errors ≠ staleState.errors :=
  ⟨by decide, by decide, by decide⟩

/-- C10 (amended): for every valid draft, if `add` rejects during
`handleSubmit` then `getAll` is not issued and the close signal is not
given, the draft and the preview are left unchanged, the field errors
are set to the (empty) result of re-validating the draft rather than
left unchanged, and the rejection propagates to the caller. -/
theorem c10_add_rejection (st : FormState) (page : Nat)
    (h : hasNoErrors (validate st.formData) = true) :
    (handleSubmit st false page).events =
      [FormEv.add st.formData.title st.formData.author st.formData.quantity
        st.formData.cover] ∧
    (handleSubmit st false page).state.formData = st.formData ∧
    (handleSubmit st false page).state.preview = st.preview ∧
    (handleSubmit st false page).state.errors = validate st.formData ∧
    (handleSubmit st false page).thrown = true := by
  simp [handleSubmit, h]

/-- C10 witness: `c10_add_rejection` at the concrete valid
`sampleState`. -/
theorem c10_add_rejection_witness :
    (handleSubmit sampleState false 1).events =
      [FormEv.add "abc" "xyz" (JsNum.num 2) (some { type := "image/png" })] ∧
    (handleSubmit sampleState false 1).state.formData = sampleDraft ∧
    (handleSubmit sampleState false 1).state.preview = "p" ∧
    (handleSubmit sampleState false 1).state.errors = validate sampleDraft ∧
    (handleSubmit sampleState false 1).thrown = true :=
  c10_add_rejection sampleState 1 (by decide)
